import Mathlib

/-!
Shallow embedding of the two pipelines of this repository:

* pipeline B, the resumable candy-description generator
  (`tools/candy-description-generator/generate.py`, `config.py`,
  `prompt_template.py`);
* pipeline A, the Shopify-handle web service
  (`shopify-handles-generator/app.py`).

CSV rows (Python `dict[str, str]` produced by `csv.DictReader`) are
modelled as association lists; the remote model API is modelled as an
oracle parameter; the file system is modelled as explicit state.
-/

/-- A CSV row as produced by `csv.DictReader`: an insertion-ordered
mapping from field name to string value. -/
abbrev Row := List (String × String)

/-- Python `row.get(k, "")` (also `row.get(k) or ""`): the value bound to
the first occurrence of `k`, or `""` when `k` is absent. -/
def rowGet : Row → String → String
  | [], _ => ""
  | p :: ps, k => if p.1 = k then p.2 else rowGet ps k

/-- Python dict assignment `row[k] = v`: replace the existing binding in
place, or append a new binding at the end (insertion order). -/
def rowSet : Row → String → String → Row
  | [], k, v => [(k, v)]
  | p :: ps, k, v => if p.1 = k then (k, v) :: ps else p :: rowSet ps k v

/-- The effect of `csv.DictWriter(f, fieldnames=fns).writerow(row)`
followed by reading the line back: the row projected onto the writer
field names, missing fields becoming `""`. -/
def writeRow (fns : List String) (row : Row) : Row :=
  fns.map (fun k => (k, rowGet row k))

/-- Python `str.strip()`: remove leading and trailing whitespace.
Defined by structural recursion over the character list so that concrete
instances evaluate inside the kernel. -/
def pyStrip (s : String) : String :=
  ⟨((s.data.dropWhile Char.isWhitespace).reverse.dropWhile
      Char.isWhitespace).reverse⟩

/-- Python `str.lower()` (structurally, over the character list). -/
def pyLower (s : String) : String :=
  ⟨s.data.map Char.toLower⟩

/-- Python `str.split("\n")` on a character list: split on every
newline, keeping empty segments (so the result is never empty). -/
def splitCharList : List Char → List (List Char)
  | [] => [[]]
  | c :: cs =>
      if c = '\n' then [] :: splitCharList cs
      else
        match splitCharList cs with
        | [] => [[c]]
        | l :: ls => (c :: l) :: ls

/-- Python `str.split("\n")`. -/
def splitLines (s : String) : List String :=
  (splitCharList s.data).map (fun l => ⟨l⟩)

/-- Python `response_text.startswith("...")` for the markdown fence. -/
def startsWithFence (s : String) : Bool :=
  "```".data.isPrefixOf s.data

/-- One iteration of the accumulation loop of `load_completed_skus`:
add the stripped `Variant SKU` to the set when it is non-empty and the
row has a non-empty (stripped) `new_description`.  The Python `set` is
modelled as a duplicate-free list. -/
def addSku (acc : List String) (row : Row) : List String :=
  if pyStrip (rowGet row "Variant SKU") ≠ "" ∧
      pyStrip (rowGet row "new_description") ≠ "" then
    (if pyStrip (rowGet row "Variant SKU") ∈ acc then acc
     else acc ++ [pyStrip (rowGet row "Variant SKU")])
  else acc

/-- `load_completed_skus` of `generate.py`, applied to the parsed data
rows of an existing output CSV. -/
def load_completed_skus (rows : List Row) : List String :=
  rows.foldl addSku []

/-- `SAVE_EVERY_N` of `config.py`. -/
def SAVE_EVERY_N : Nat := 10

/-- The mutable state of the main loop of `generate.py`: the data rows
already appended to the output file during this run, the in-memory
buffer, the `processed` / `skipped` / `errors` counters, and a count of
the rate-limit sleeps executed. -/
structure LoopState where
  file : List Row
  buffer : List Row
  processed : Nat
  skipped : Nat
  errors : Nat
  sleeps : Nat
deriving Repr, DecidableEq

/-- The loop state at entry of the processing loop. -/
def initState : LoopState := ⟨[], [], 0, 0, 0, 0⟩

/-- The augmented row produced for one non-skipped record: on oracle
success `d`, `new_description = d` and `generation_status = "success"`;
on a caught exception with message `e`, `new_description = ""` and
`generation_status = "error: " ++ e`.  The oracle stands for
`generate_description` (one remote call). -/
def processedRow (oracle : Row → Except String String) (row : Row) : Row :=
  match oracle row with
  | Except.ok d =>
      rowSet (rowSet row "new_description" d) "generation_status" "success"
  | Except.error e =>
      rowSet (rowSet row "new_description" "") "generation_status" ("error: " ++ e)

/-- One iteration of the `for i, row in enumerate(rows)` loop of `main`:
skip when the stripped SKU is in the completed set (no buffer append, no
sleep); otherwise process the row, append it to the buffer, flush the
buffer to the file when it reaches `SAVE_EVERY_N`, and sleep. -/
def stepRow (completed : List String) (oracle : Row → Except String String)
    (s : LoopState) (row : Row) : LoopState :=
  if pyStrip (rowGet row "Variant SKU") ∈ completed then
    { s with skipped := s.skipped + 1 }
  else
    let s1 : LoopState :=
      { s with
        buffer := s.buffer ++ [processedRow oracle row]
        processed := s.processed + (if (oracle row).isOk then 1 else 0)
        errors := s.errors + (if (oracle row).isOk then 0 else 1) }
    let s2 : LoopState :=
      if SAVE_EVERY_N ≤ s1.buffer.length then
        { s1 with file := s1.file ++ s1.buffer, buffer := [] }
      else s1
    { s2 with sleeps := s2.sleeps + 1 }

/-- The processing loop of `main` over the whole input sequence. -/
def runLoop (completed : List String) (oracle : Row → Except String String)
    (s : LoopState) (rows : List Row) : LoopState :=
  rows.foldl (stepRow completed oracle) s

/-- The final `if buffer: append_rows(...)` flush after the loop. -/
def finalFlush (s : LoopState) : LoopState :=
  { s with file := s.file ++ s.buffer, buffer := [] }

/-- The sequence of augmented rows the run appends (in order): one per
non-skipped input record. -/
def processAll (completed : List String) (oracle : Row → Except String String)
    (rows : List Row) : List Row :=
  rows.filterMap (fun r =>
    if pyStrip (rowGet r "Variant SKU") ∈ completed then none
    else some (processedRow oracle r))

/-- Number of input records not skipped by the resume check. -/
def nonSkippedCount (completed : List String) (rows : List Row) : Nat :=
  (rows.filter (fun r => pyStrip (rowGet r "Variant SKU") ∉ completed)).length

/-- An output CSV file on disk: an optional header line (a file created
by an append without ever calling `init_output_csv` has none), and the
data lines, each stored as the writer projection that produced it. -/
structure OutFile where
  header : Option (List String)
  rows : List Row
deriving Repr, DecidableEq

/-- How `csv.DictReader` builds one row dict: zip the header field names
with the values of a line, missing values read as `""`. -/
def zipRow : List String → List String → Row
  | [], _ => []
  | k :: ks, [] => (k, "") :: zipRow ks []
  | k :: ks, v :: vs => (k, v) :: zipRow ks vs

/-- The row dicts `csv.DictReader` yields for an output file: keyed by
the header line when one exists; for a headerless file the first data
line is consumed as the header. -/
def fileDicts (f : OutFile) : List Row :=
  match f.header with
  | some hdr => f.rows.map (fun r => zipRow hdr (r.map Prod.snd))
  | none =>
      match f.rows with
      | [] => []
      | h :: rest => rest.map (fun r => zipRow (h.map Prod.snd) (r.map Prod.snd))

/-- `load_completed_skus` applied to a path: `os.path.exists` fails on a
missing file (empty set); otherwise the file is parsed and scanned. -/
def load_completed_skus_file (f : Option OutFile) : List String :=
  match f with
  | none => []
  | some f => load_completed_skus (fileDicts f)

/-- `init_output_csv` of `generate.py`: create the file with a header
line when it does not exist; leave an existing file untouched. -/
def init_output_csv (f : Option OutFile) (fns : List String) : Option OutFile :=
  match f with
  | none => some ⟨some fns, []⟩
  | some f => some f

/-- Net effect of the `append_rows` calls of one run: appending nothing
never touches the file (the code only calls `append_rows` on a non-empty
buffer); appending to a missing file creates it headerless (mode `"a"`
writes no header). -/
def appendFile (f : Option OutFile) (fns : List String) (newRows : List Row) :
    Option OutFile :=
  match newRows with
  | [] => f
  | _ :: _ =>
      match f with
      | none => some ⟨none, newRows.map (writeRow fns)⟩
      | some of => some { of with rows := of.rows ++ newRows.map (writeRow fns) }

/-- Output field names computed by `main`: the keys of the first input
row, with `new_description` and `generation_status` appended when not
already present. -/
def mkFieldnames (rows : List Row) : List String :=
  let base := match rows with
    | [] => []
    | r :: _ => r.map Prod.fst
  let f1 := if "new_description" ∈ base then base else base ++ ["new_description"]
  if "generation_status" ∈ f1 then f1 else f1 ++ ["generation_status"]

/-- Observable outcome of one run of `main`. -/
structure RunResult where
  file : Option OutFile
  processed : Nat
  skipped : Nat
  errors : Nat
deriving Repr, DecidableEq

/-- The `main` function of `generate.py` after argument parsing and
credential/input validation: with `--resume` the completed set is loaded
from the output file and no header initialization happens; without it
the completed set is empty and the output file is initialized.  Then the
loop runs, the trailing buffer is flushed, and every appended row is
written through the `DictWriter` projection. -/
def mainRun (resume : Bool) (oracle : Row → Except String String)
    (inputRows : List Row) (outFile : Option OutFile) : RunResult :=
  let fns := mkFieldnames inputRows
  let completed := if resume then load_completed_skus_file outFile else []
  let out1 := if resume then outFile else init_output_csv outFile fns
  let s := finalFlush (runLoop completed oracle initState inputRows)
  { file := appendFile out1 fns s.file
    processed := s.processed
    skipped := s.skipped
    errors := s.errors }

/-- Number of data lines of an output file (0 when the file is absent). -/
def fileRowCount (f : Option OutFile) : Nat :=
  match f with
  | none => 0
  | some f => f.rows.length

/-- The four mini-description keys scanned by the
`for i in range(1, 5)` loop of `build_user_prompt`. -/
def DESC_MINI_KEYS : List String :=
  ["description_mini_01", "description_mini_02", "description_mini_03",
   "description_mini_04"]

/-- The `minis` accumulation loop of `build_user_prompt`: truthy values
of the four mini-description fields, in order. -/
def miniDescriptions (row : Row) : List String :=
  DESC_MINI_KEYS.foldl
    (fun acc k => if rowGet row k ≠ "" then acc ++ [rowGet row k] else acc) []

/-- The fixed instruction suffix appended by `build_user_prompt`. -/
def promptInstruction : String :=
  "\nWrite a product description following the rules. Return only the description text, nothing else."

/-- `build_user_prompt` of `prompt_template.py`: the title line is the
unconditional first element; each later field is appended only when
truthy (non-empty); the mini descriptions are joined with a fixed
separator; the parts are joined with newlines after the fixed suffix is
appended. -/
def build_user_prompt (row : Row) : String :=
  let p1 := ["Product title: " ++ rowGet row "Title"]
  let p2 := if rowGet row "Vendor" ≠ "" then
      p1 ++ ["Brand/Vendor: " ++ rowGet row "Vendor"] else p1
  let p3 := if rowGet row "description" ≠ "" then
      p2 ++ ["Current description: " ++ rowGet row "description"] else p2
  let p4 := if rowGet row "units_01" ≠ "" then
      p3 ++ ["Units/sizing: " ++ rowGet row "units_01"] else p3
  let p5 := if rowGet row "certifications" ≠ "" then
      p4 ++ ["Certifications: " ++ rowGet row "certifications"] else p4
  let p6 := if rowGet row "nutritional_claims" ≠ "" then
      p5 ++ ["Nutritional claims: " ++ rowGet row "nutritional_claims"] else p5
  let p7 := if rowGet row "occasion" ≠ "" then
      p6 ++ ["Occasion: " ++ rowGet row "occasion"] else p6
  let minis := miniDescriptions row
  let p8 := if minis ≠ [] then
      p7 ++ ["Additional details: " ++ String.intercalate " | " minis] else p7
  String.intercalate "\n" (p8 ++ [promptInstruction])

/-- A labeled line for one optional field, emitted only when the field
is non-empty.  Used by the spec-side formulations of the prompt
builder. -/
def optionalLine (row : Row) (label key : String) : List String :=
  if rowGet row key ≠ "" then [label ++ rowGet row key] else []

/-- The mini-description block as the spec describes it: the present
fragments joined by a fixed separator, emitted only when at least one is
present. -/
def miniBlock (row : Row) : List String :=
  let minis := DESC_MINI_KEYS.filterMap
    (fun k => if rowGet row k ≠ "" then some (rowGet row k) else none)
  if minis ≠ [] then ["Additional details: " ++ String.intercalate " | " minis]
  else []

/-- Modelled from the spec sentence of claim C8 as amended: the title
line is always emitted (with an empty value when the field is absent);
the six other labeled fields are skipped when empty; then the
mini-description block; then the fixed suffix. -/
def build_user_prompt_spec (row : Row) : String :=
  String.intercalate "\n"
    ((["Product title: " ++ rowGet row "Title"]
      ++ optionalLine row "Brand/Vendor: " "Vendor"
      ++ optionalLine row "Current description: " "description"
      ++ optionalLine row "Units/sizing: " "units_01"
      ++ optionalLine row "Certifications: " "certifications"
      ++ optionalLine row "Nutritional claims: " "nutritional_claims"
      ++ optionalLine row "Occasion: " "occasion"
      ++ miniBlock row)
      ++ [promptInstruction])

/-- Modelled from the claim C8 exactly as stated: the title line would
also be skipped when the title field is empty or absent. -/
def build_user_prompt_claim (row : Row) : String :=
  String.intercalate "\n"
    ((optionalLine row "Product title: " "Title"
      ++ optionalLine row "Brand/Vendor: " "Vendor"
      ++ optionalLine row "Current description: " "description"
      ++ optionalLine row "Units/sizing: " "units_01"
      ++ optionalLine row "Certifications: " "certifications"
      ++ optionalLine row "Nutritional claims: " "nutritional_claims"
      ++ optionalLine row "Occasion: " "occasion"
      ++ miniBlock row)
      ++ [promptInstruction])

/-- Outcome of the one `client.messages.create` call of
`generate_handles` in `app.py`: the exceptions the handler distinguishes
(`AuthenticationError` is caught before the more general `APIError`), a
catch-all, or the text of the first response segment. -/
inductive RemoteResult where
  | authError : RemoteResult
  | apiError : String → RemoteResult
  | otherError : String → RemoteResult
  | ok : String → RemoteResult
deriving Repr, DecidableEq

/-- Body of a response of the `/generate` handler: a plain error object,
an error object with the raw offending text attached, or a results
object holding the parsed JSON value. -/
inductive RespBody (α : Type) where
  | err : String → RespBody α
  | errRaw : String → String → RespBody α
  | ok : α → RespBody α
deriving Repr, DecidableEq

/-- The `user_message` numbering loop of `generate_handles`
(`enumerate(product_names, 1)`). -/
def numberLines : Nat → List String → String
  | _, [] => ""
  | j, n :: rest => toString j ++ ". " ++ n ++ "\n" ++ numberLines (j + 1) rest

/-- The complete `user_message` built by `generate_handles`. -/
def buildUserMessage (names existing : List String) : String :=
  "Generate Shopify handles for these products:\n\n" ++ numberLines 1 names
    ++ (if existing ≠ [] then
          "\n\nAlready-used handles (must not duplicate): "
            ++ String.intercalate ", " existing
        else "")

/-- The markdown fence stripping of `generate_handles`: when the text
starts with a fence, drop the first line and every line that strips to a
bare closing fence. -/
def stripFences (t : String) : String :=
  if startsWithFence t then
    String.intercalate "\n"
      (((splitLines t).drop 1).filter (fun l => pyStrip l ≠ "```"))
  else t

/-- The `POST /generate` handler (`generate_handles` of `app.py`).
`jsonLoads` models the external `json.loads` (`none` models
`json.JSONDecodeError`); `haveClient` models whether the module-level
client was constructed (the API key was set); `remote` models the one
`client.messages.create` call as a function of the user message.  The
result is the HTTP status paired with the response body. -/
def generate_handles {α : Type} (jsonLoads : String → Option α)
    (haveClient : Bool) (product_names existing_handles : List String)
    (remote : String → RemoteResult) : Nat × RespBody α :=
  if haveClient = false then
    (500, RespBody.err "ANTHROPIC_API_KEY is not set. Add it to your .env file and restart the server.")
  else if product_names = [] then
    (400, RespBody.err "No product names provided")
  else
    match remote (buildUserMessage product_names existing_handles) with
    | RemoteResult.authError =>
        (401, RespBody.err "Invalid API key. Check your ANTHROPIC_API_KEY in the .env file.")
    | RemoteResult.apiError m =>
        (502, RespBody.err ("Anthropic API error: " ++ m))
    | RemoteResult.otherError m =>
        (500, RespBody.err ("Server error: " ++ m))
    | RemoteResult.ok text =>
        let response_text := stripFences (pyStrip text)
        match jsonLoads response_text with
        | none => (500, RespBody.errRaw "Failed to parse AI response" response_text)
        | some results => (200, RespBody.ok results)

/-- A tiny concrete stand-in for `json.loads` used only to instantiate
theorems: it parses exactly the literal `"[]"` to the empty array (which
is what `json.loads` returns on that input). -/
def parseEmptyArray (s : String) : Option (List (String × String)) :=
  if s = "[]" then some [] else none

/-- A worksheet as the importer reads it: the grid of cell values, each
cell already rendered to text the way `upload_file` renders it
(`str(value or "")`, so an empty cell is `""`).  Rows are listed top to
bottom. -/
abbrev Sheet := List (List String)

/-- `ws.cell(row=r, column=c).value` rendered to text (1-indexed). -/
def cellAt (s : Sheet) (r c : Nat) : String :=
  (s.getD (r - 1) []).getD (c - 1) ""

/-- `ws.max_row`. -/
def maxRow (s : Sheet) : Nat := s.length

/-- `ws.max_column`. -/
def maxCol (s : Sheet) : Nat := s.foldl (fun m row => max m row.length) 0

/-- The recognized product-name header strings of `upload_file`. -/
def RECOGNIZED : List String :=
  ["product", "product name", "product_name", "title", "name", "item",
   "item name"]

/-- The header-search loop of `upload_file`: the first column of row 1
whose lowered, stripped text is a recognized header. -/
def findProductCol (s : Sheet) : Option Nat :=
  (List.range' 1 (maxCol s)).find?
    (fun c => (pyStrip (pyLower (cellAt s 1 c)) ∈ RECOGNIZED : Bool))

/-- Python `first_val[0].isdigit()` on a possibly empty string (the code
only evaluates it under a truthiness guard). -/
def firstCharIsDigit (v : String) : Bool :=
  match v.toList with
  | [] => false
  | c :: _ => c.isDigit

/-- The extraction loop of `upload_file`: for each sheet row strictly
below `headerRow`, keep the stripped cell value of column `col` when the
cell is truthy and strips to a non-empty string. -/
def extractColumn (s : Sheet) (col headerRow : Nat) : List String :=
  (List.range' (headerRow + 1) (maxRow s - headerRow)).filterMap
    (fun r =>
      let v := cellAt s r col
      if v ≠ "" ∧ pyStrip v ≠ "" then some (pyStrip v) else none)

/-- The `upload_file` handler of `app.py` after file validation: the
extracted product names, the chosen column, and the detected header
row. -/
def upload_model (s : Sheet) : List String × Nat × Nat :=
  match findProductCol s with
  | some c => (extractColumn s c 1, c, 1)
  | none =>
      let first_val := cellAt s 1 1
      let hr := if first_val ≠ "" ∧ firstCharIsDigit first_val = false then 1 else 0
      (extractColumn s 1 hr, 1, hr)

/-- Modelled from the spec sentence of claim C9 (extraction): the values
of the chosen column on the sheet rows below the header row, keeping the
non-empty stripped values in original row order. -/
def colValuesBelow (s : Sheet) (col headerRow : Nat) : List String :=
  ((s.drop headerRow).map (fun row => row.getD (col - 1) "")).filterMap
    (fun v => if v ≠ "" ∧ pyStrip v ≠ "" then some (pyStrip v) else none)

/-! ### Lemmas about the row model -/

theorem rowGet_rowSet_same (r : Row) (k v : String) :
    rowGet (rowSet r k v) k = v := by
  induction r with
  | nil => simp [rowSet, rowGet]
  | cons p ps ih =>
      by_cases h : p.1 = k
      · simp [rowSet, h, rowGet]
      · simp [rowSet, h, rowGet, ih]

theorem rowGet_rowSet_ne (r : Row) (k v k' : String) (h : k' ≠ k) :
    rowGet (rowSet r k v) k' = rowGet r k' := by
  induction r with
  | nil =>
      simp only [rowSet, rowGet]
      rw [if_neg (fun hh => h hh.symm)]
  | cons p ps ih =>
      by_cases hp : p.1 = k
      · subst hp
        simp only [rowSet, if_pos rfl, rowGet]
        rw [if_neg (fun hh => h hh.symm), if_neg (fun hh => h hh.symm)]
      · simp only [rowSet, if_neg hp, rowGet]
        by_cases hp' : p.1 = k'
        · simp [hp']
        · simp [hp', ih]

theorem rowGet_writeRow (fns : List String) (r : Row) (k : String)
    (h : k ∈ fns) : rowGet (writeRow fns r) k = rowGet r k := by
  induction fns with
  | nil => cases h
  | cons f fs ih =>
      simp only [writeRow, List.map_cons, rowGet]
      by_cases hf : f = k
      · subst hf; simp
      · rw [if_neg hf]
        exact ih ((List.mem_cons.mp h).resolve_left (fun hh => hf hh.symm))

theorem mem_keys_of_rowGet_ne (r : Row) (k : String)
    (h : rowGet r k ≠ "") : k ∈ r.map Prod.fst := by
  induction r with
  | nil => simp [rowGet] at h
  | cons p ps ih =>
      simp only [rowGet] at h
      by_cases hp : p.1 = k
      · simp [hp]
      · rw [if_neg hp] at h
        simp [ih h]

theorem zipRow_map_self (ks : List String) (f : String → String) :
    zipRow ks (ks.map f) = ks.map (fun k => (k, f k)) := by
  induction ks with
  | nil => rfl
  | cons k ks ih => simp [zipRow, ih]

/-! ### Lemmas about the resume detector -/

theorem mem_addSku (acc : List String) (r : Row) (k : String) :
    k ∈ addSku acc r ↔ k ∈ acc ∨
      (pyStrip (rowGet r "Variant SKU") = k ∧ k ≠ "" ∧
        pyStrip (rowGet r "new_description") ≠ "") := by
  unfold addSku
  split_ifs with h1 h2
  · constructor
    · exact Or.inl
    · rintro (h | ⟨hk, _, _⟩)
      · exact h
      · exact hk ▸ h2
  · simp only [List.mem_append, List.mem_singleton]
    constructor
    · rintro (h | rfl)
      · exact Or.inl h
      · exact Or.inr ⟨rfl, h1.1, h1.2⟩
    · rintro (h | ⟨rfl, _, _⟩)
      · exact Or.inl h
      · exact Or.inr rfl
  · constructor
    · exact Or.inl
    · rintro (h | ⟨hk, hne, hnd⟩)
      · exact h
      · exact absurd ⟨hk.symm ▸ hne, hnd⟩ h1

theorem mem_foldl_addSku (rows : List Row) :
    ∀ (acc : List String) (k : String),
      k ∈ rows.foldl addSku acc ↔ k ∈ acc ∨
        ∃ r ∈ rows, (pyStrip (rowGet r "Variant SKU") = k ∧ k ≠ "" ∧
          pyStrip (rowGet r "new_description") ≠ "") := by
  induction rows with
  | nil => simp
  | cons r rs ih =>
      intro acc k
      simp only [List.foldl_cons]
      rw [ih, mem_addSku]
      constructor
      · rintro ((h | h) | ⟨r', hr', h⟩)
        · exact Or.inl h
        · exact Or.inr ⟨r, List.mem_cons_self r rs, h⟩
        · exact Or.inr ⟨r', List.mem_cons_of_mem r hr', h⟩
      · rintro (h | ⟨r', hr', h⟩)
        · exact Or.inl (Or.inl h)
        · rcases List.mem_cons.mp hr' with rfl | hr'
          · exact Or.inl (Or.inr h)
          · exact Or.inr ⟨r', hr', h⟩

theorem mem_load_completed_skus (rows : List Row) (k : String) :
    k ∈ load_completed_skus rows ↔
      ∃ r ∈ rows, (pyStrip (rowGet r "Variant SKU") = k ∧ k ≠ "" ∧
        pyStrip (rowGet r "new_description") ≠ "") := by
  rw [load_completed_skus, mem_foldl_addSku]
  simp

/-! ### Lemmas about the processing loop -/

theorem SAVE_EVERY_N_pos : 0 < SAVE_EVERY_N := by decide

theorem processedRow_ok (oracle : Row → Except String String) (row : Row)
    (d : String) (h : oracle row = Except.ok d) :
    rowGet (processedRow oracle row) "generation_status" = "success" ∧
      rowGet (processedRow oracle row) "new_description" = d := by
  unfold processedRow
  rw [h]
  refine ⟨rowGet_rowSet_same .., ?_⟩
  rw [rowGet_rowSet_ne _ _ _ _ (by decide), rowGet_rowSet_same]

theorem processedRow_error (oracle : Row → Except String String) (row : Row)
    (e : String) (h : oracle row = Except.error e) :
    rowGet (processedRow oracle row) "generation_status" = "error: " ++ e ∧
      rowGet (processedRow oracle row) "new_description" = "" := by
  unfold processedRow
  rw [h]
  refine ⟨rowGet_rowSet_same .., ?_⟩
  rw [rowGet_rowSet_ne _ _ _ _ (by decide), rowGet_rowSet_same]

theorem processedRow_other_key (oracle : Row → Except String String)
    (row : Row) (k : String) (h1 : k ≠ "new_description")
    (h2 : k ≠ "generation_status") :
    rowGet (processedRow oracle row) k = rowGet row k := by
  unfold processedRow
  cases oracle row with
  | ok d => rw [rowGet_rowSet_ne _ _ _ _ h2, rowGet_rowSet_ne _ _ _ _ h1]
  | error e => rw [rowGet_rowSet_ne _ _ _ _ h2, rowGet_rowSet_ne _ _ _ _ h1]

theorem stepRow_skip (c : List String) (o : Row → Except String String)
    (s : LoopState) (row : Row) (h : pyStrip (rowGet row "Variant SKU") ∈ c) :
    stepRow c o s row = { s with skipped := s.skipped + 1 } := by
  simp [stepRow, h]

theorem stepRow_concat (c : List String) (o : Row → Except String String)
    (s : LoopState) (row : Row) (h : pyStrip (rowGet row "Variant SKU") ∉ c) :
    (stepRow c o s row).file ++ (stepRow c o s row).buffer
      = s.file ++ s.buffer ++ [processedRow o row] := by
  simp only [stepRow, if_neg h]
  split
  · simp
  · simp

theorem stepRow_buffer_len (c : List String) (o : Row → Except String String)
    (s : LoopState) (row : Row) (h : pyStrip (rowGet row "Variant SKU") ∉ c)
    (hb : s.buffer.length < SAVE_EVERY_N) :
    (stepRow c o s row).buffer.length
      = (s.buffer.length + 1) % SAVE_EVERY_N := by
  simp only [stepRow, if_neg h]
  split
  · rename_i h2
    simp only [List.length_append, List.length_singleton] at h2
    have he : s.buffer.length + 1 = SAVE_EVERY_N := Nat.le_antisymm hb h2
    simp [he, Nat.mod_self]
  · rename_i h2
    simp only [List.length_append, List.length_singleton] at h2 ⊢
    rw [Nat.mod_eq_of_lt (Nat.lt_of_not_le h2)]

theorem stepRow_sleeps (c : List String) (o : Row → Except String String)
    (s : LoopState) (row : Row) (h : pyStrip (rowGet row "Variant SKU") ∉ c) :
    (stepRow c o s row).sleeps = s.sleeps + 1 := by
  simp only [stepRow, if_neg h]
  split
  · rfl
  · rfl

theorem processAll_cons_skip (c : List String)
    (o : Row → Except String String) (r : Row) (rs : List Row)
    (h : pyStrip (rowGet r "Variant SKU") ∈ c) :
    processAll c o (r :: rs) = processAll c o rs := by
  simp [processAll, h]

theorem processAll_cons_keep (c : List String)
    (o : Row → Except String String) (r : Row) (rs : List Row)
    (h : pyStrip (rowGet r "Variant SKU") ∉ c) :
    processAll c o (r :: rs) = processedRow o r :: processAll c o rs := by
  simp [processAll, h]

theorem nonSkippedCount_cons_skip (c : List String) (r : Row) (rs : List Row)
    (h : pyStrip (rowGet r "Variant SKU") ∈ c) :
    nonSkippedCount c (r :: rs) = nonSkippedCount c rs := by
  simp [nonSkippedCount, h]

theorem nonSkippedCount_cons_keep (c : List String) (r : Row) (rs : List Row)
    (h : pyStrip (rowGet r "Variant SKU") ∉ c) :
    nonSkippedCount c (r :: rs) = nonSkippedCount c rs + 1 := by
  simp [nonSkippedCount, h]

theorem runLoop_concat (c : List String) (o : Row → Except String String) :
    ∀ (rows : List Row) (s : LoopState),
      (runLoop c o s rows).file ++ (runLoop c o s rows).buffer
        = s.file ++ s.buffer ++ processAll c o rows := by
  intro rows
  induction rows with
  | nil => intro s; simp [runLoop, processAll]
  | cons r rs ih =>
      intro s
      simp only [runLoop, List.foldl_cons] at *
      by_cases h : pyStrip (rowGet r "Variant SKU") ∈ c
      · rw [stepRow_skip c o s r h, ih, processAll_cons_skip c o r rs h]
      · rw [ih, stepRow_concat c o s r h, processAll_cons_keep c o r rs h]
        simp

theorem runLoop_buffer_len (c : List String) (o : Row → Except String String) :
    ∀ (rows : List Row) (s : LoopState),
      s.buffer.length < SAVE_EVERY_N →
      (runLoop c o s rows).buffer.length
        = (s.buffer.length + nonSkippedCount c rows) % SAVE_EVERY_N := by
  intro rows
  induction rows with
  | nil =>
      intro s hb
      simp [runLoop, nonSkippedCount, Nat.mod_eq_of_lt hb]
  | cons r rs ih =>
      intro s hb
      simp only [runLoop, List.foldl_cons] at *
      by_cases h : pyStrip (rowGet r "Variant SKU") ∈ c
      · rw [stepRow_skip c o s r h, nonSkippedCount_cons_skip c r rs h]
        exact ih _ hb
      · have hlt : (stepRow c o s r).buffer.length < SAVE_EVERY_N := by
          rw [stepRow_buffer_len c o s r h hb]
          exact Nat.mod_lt _ SAVE_EVERY_N_pos
        rw [ih _ hlt, stepRow_buffer_len c o s r h hb,
          nonSkippedCount_cons_keep c r rs h, Nat.mod_add_mod]
        congr 1
        omega

theorem runLoop_sleeps (c : List String) (o : Row → Except String String) :
    ∀ (rows : List Row) (s : LoopState),
      (runLoop c o s rows).sleeps = s.sleeps + nonSkippedCount c rows := by
  intro rows
  induction rows with
  | nil => intro s; simp [runLoop, nonSkippedCount]
  | cons r rs ih =>
      intro s
      simp only [runLoop, List.foldl_cons] at *
      by_cases h : pyStrip (rowGet r "Variant SKU") ∈ c
      · rw [stepRow_skip c o s r h, ih, nonSkippedCount_cons_skip c r rs h]
      · rw [ih, stepRow_sleeps c o s r h, nonSkippedCount_cons_keep c r rs h]
        omega

theorem runLoop_all_skipped (c : List String)
    (o : Row → Except String String) :
    ∀ (rows : List Row) (s : LoopState),
      (∀ r ∈ rows, pyStrip (rowGet r "Variant SKU") ∈ c) →
      runLoop c o s rows = { s with skipped := s.skipped + rows.length } := by
  intro rows
  induction rows with
  | nil => intro s _; simp [runLoop]
  | cons r rs ih =>
      intro s hall
      simp only [runLoop, List.foldl_cons] at *
      rw [stepRow_skip c o s r (hall r (List.mem_cons_self r rs)),
        ih _ (fun r' hr' => hall r' (List.mem_cons_of_mem r hr'))]
      simp only [List.length_cons]
      congr 1
      omega

theorem processAll_length (c : List String) (o : Row → Except String String) :
    ∀ (rows : List Row),
      (processAll c o rows).length = nonSkippedCount c rows := by
  intro rows
  induction rows with
  | nil => simp [processAll, nonSkippedCount]
  | cons r rs ih =>
      by_cases h : pyStrip (rowGet r "Variant SKU") ∈ c
      · rw [processAll_cons_skip c o r rs h, nonSkippedCount_cons_skip c r rs h, ih]
      · rw [processAll_cons_keep c o r rs h, nonSkippedCount_cons_keep c r rs h,
          List.length_cons, ih]

theorem processAll_nil_completed (o : Row → Except String String)
    (rows : List Row) :
    processAll [] o rows = rows.map (processedRow o) := by
  simp only [processAll, List.not_mem_nil, if_neg, ite_false]
  exact congrFun (List.filterMap_eq_map (processedRow o)) rows

theorem processAll_append (c : List String) (o : Row → Except String String)
    (xs ys : List Row) :
    processAll c o (xs ++ ys) = processAll c o xs ++ processAll c o ys := by
  simp [processAll]

/-! ### Lemmas about the output field names -/

theorem mem_mkFieldnames_nd (rows : List Row) :
    "new_description" ∈ mkFieldnames rows := by
  simp only [mkFieldnames]
  split_ifs with h1 h2 h3 <;> simp_all

theorem mem_mkFieldnames_gs (rows : List Row) :
    "generation_status" ∈ mkFieldnames rows := by
  simp only [mkFieldnames]
  split_ifs with h1 h2 h3 <;> simp_all

theorem mem_mkFieldnames_of_head (r : Row) (rest : List Row) (k : String)
    (h : k ∈ r.map Prod.fst) : k ∈ mkFieldnames (r :: rest) := by
  simp only [mkFieldnames]
  split_ifs <;> simp_all

/-! ### Lemmas about the sheet importer -/

theorem getD_map_range {α : Type} (d : α) :
    ∀ (l : List α) (k : Nat),
      (List.range (l.length - k)).map (fun i => l.getD (k + i) d)
        = l.drop k := by
  intro l
  induction l with
  | nil => intro k; simp
  | cons x xs ih =>
      intro k
      cases k with
      | zero =>
          simp only [List.length_cons, Nat.sub_zero, List.drop_zero]
          rw [List.range_succ_eq_map]
          simp only [List.map_cons, Nat.zero_add, List.getD_cons_zero,
            List.map_map]
          refine congrArg (x :: ·) ?_
          have h0 := ih 0
          simp only [Nat.sub_zero, Nat.zero_add, List.drop_zero] at h0
          conv_rhs => rw [← h0]
          refine List.map_congr_left ?_
          intro i _
          rfl
      | succ k' =>
          simp only [List.length_cons, Nat.succ_sub_succ, List.drop_succ_cons]
          rw [← ih k']
          refine List.map_congr_left ?_
          intro i _
          show (x :: xs).getD (k' + 1 + i) d = xs.getD (k' + i) d
          rw [show k' + 1 + i = (k' + i) + 1 by omega]
          rfl

theorem extractColumn_eq_colValuesBelow (s : Sheet) (col hr : Nat) :
    extractColumn s col hr = colValuesBelow s col hr := by
  unfold extractColumn colValuesBelow maxRow
  rw [List.range'_eq_map_range, List.filterMap_map,
    ← getD_map_range ([] : List String) s hr, List.map_map,
    List.filterMap_map]
  refine List.filterMap_congr ?_
  intro i _
  show (fun r =>
      if cellAt s r col ≠ "" ∧ pyStrip (cellAt s r col) ≠ ""
      then some (pyStrip (cellAt s r col)) else none) (hr + 1 + i)
    = _
  simp only [Function.comp, cellAt]
  rw [show hr + 1 + i - 1 = hr + i by omega]

/-! ### Lemma about the mini-description loop -/

theorem foldl_append_eq_filterMap (row : Row) :
    ∀ (l : List String) (acc : List String),
      l.foldl (fun a k => if rowGet row k ≠ "" then a ++ [rowGet row k] else a) acc
        = acc ++ l.filterMap
            (fun k => if rowGet row k ≠ "" then some (rowGet row k) else none) := by
  intro l
  induction l with
  | nil => intro acc; simp
  | cons k ks ih =>
      intro acc
      simp only [List.foldl_cons, List.filterMap_cons]
      by_cases h : rowGet row k ≠ ""
      · rw [if_pos h, if_pos h, ih]
        simp
      · rw [if_neg h, if_neg h, ih]

theorem miniDescriptions_eq_filterMap (row : Row) :
    miniDescriptions row = DESC_MINI_KEYS.filterMap
      (fun k => if rowGet row k ≠ "" then some (rowGet row k) else none) := by
  unfold miniDescriptions
  rw [foldl_append_eq_filterMap]
  simp

theorem eq_processedRow_of_mem_processAll (c : List String)
    (o : Row → Except String String) (rows : List Row) (r : Row)
    (h : r ∈ processAll c o rows) : ∃ r0 ∈ rows, r = processedRow o r0 := by
  unfold processAll at h
  rw [List.mem_filterMap] at h
  obtain ⟨a, ha, hfa⟩ := h
  by_cases hm : pyStrip (rowGet a "Variant SKU") ∈ c
  · rw [if_pos hm] at hfa
    cases hfa
  · rw [if_neg hm] at hfa
    injection hfa with h
    exact ⟨a, ha, h.symm⟩

theorem flushed_file_eq (c : List String) (o : Row → Except String String)
    (rows : List Row) :
    (finalFlush (runLoop c o initState rows)).file = processAll c o rows := by
  show (runLoop c o initState rows).file
      ++ (runLoop c o initState rows).buffer = _
  rw [runLoop_concat c o rows initState]
  have h : initState.file = [] ∧ initState.buffer = [] := ⟨rfl, rfl⟩
  rw [h.1, h.2]
  simp

theorem appendFile_init (fns : List String) (newRows : List Row)
    (h : newRows ≠ []) :
    appendFile (some ⟨some fns, []⟩) fns newRows
      = some ⟨some fns, newRows.map (writeRow fns)⟩ := by
  cases newRows with
  | nil => cases h rfl
  | cons a l => simp [appendFile]

theorem fileDicts_writeRows (fns : List String) (rs : List Row) :
    fileDicts ⟨some fns, rs.map (writeRow fns)⟩ = rs.map (writeRow fns) := by
  simp only [fileDicts, List.map_map]
  refine List.map_congr_left ?_
  intro r _
  show zipRow fns ((writeRow fns r).map Prod.snd) = writeRow fns r
  rw [writeRow, List.map_map, zipRow_map_self]
  rfl

theorem mainRun_fresh_file (oracle : Row → Except String String)
    (rows : List Row) :
    (mainRun false oracle rows none).file
      = appendFile (some ⟨some (mkFieldnames rows), []⟩) (mkFieldnames rows)
          (rows.map (processedRow oracle)) := by
  simp only [mainRun, init_output_csv, Bool.false_eq_true, if_false]
  show appendFile _ _ (finalFlush (runLoop [] oracle initState rows)).file = _
  rw [flushed_file_eq, processAll_nil_completed]

theorem mainRun_resume_all_skipped (oracle : Row → Except String String)
    (rows : List Row) (outF : Option OutFile)
    (hall : ∀ r ∈ rows,
      pyStrip (rowGet r "Variant SKU") ∈ load_completed_skus_file outF) :
    mainRun true oracle rows outF
      = { file := outF, processed := 0, skipped := rows.length,
          errors := 0 } := by
  simp only [mainRun, if_true]
  rw [runLoop_all_skipped (load_completed_skus_file outF) oracle rows
    initState hall]
  simp [finalFlush, appendFile, initState]

/-! ### Claim theorems -/

/-- C1: for every output CSV, `load_completed_skus` returns exactly the
set of keys `k` such that some row of the file has a `Variant SKU` that
trims to `k` (non-empty) together with a `new_description` that is
non-empty after trimming; rows with an empty `new_description` (e.g.
errored rows) contribute no key. -/
theorem c1_load_completed_skus_exact (rows : List Row) (k : String) :
    k ∈ load_completed_skus rows ↔
      ∃ r ∈ rows, (pyStrip (rowGet r "Variant SKU") = k ∧ k ≠ "" ∧
        pyStrip (rowGet r "new_description") ≠ "") :=
  mem_load_completed_skus rows k

/-- C4: the buffer is appended to the output file and cleared exactly
when it reaches `SAVE_EVERY_N`: after a prefix of the input whose
non-skipped row count is `K * SAVE_EVERY_N + M` with `M < SAVE_EVERY_N`
and with no final flush, the file holds exactly `K * SAVE_EVERY_N` data
rows and the buffer exactly `M < SAVE_EVERY_N` records (this applies at
every loop iteration boundary, since `rows` ranges over every prefix of
the input); after the input is exhausted the remaining buffered records
are appended unconditionally, so the flushed file holds every
non-skipped row. -/
theorem c4_checkpoint_invariant (c : List String)
    (o : Row → Except String String) (rows : List Row) (K M : Nat)
    (hM : M < SAVE_EVERY_N)
    (hn : nonSkippedCount c rows = K * SAVE_EVERY_N + M) :
    (runLoop c o initState rows).file.length = K * SAVE_EVERY_N ∧
    (runLoop c o initState rows).buffer.length = M ∧
    (runLoop c o initState rows).buffer.length < SAVE_EVERY_N ∧
    (finalFlush (runLoop c o initState rows)).file.length
      = nonSkippedCount c rows := by
  have hb0 : initState.buffer.length < SAVE_EVERY_N := SAVE_EVERY_N_pos
  have hbuf := runLoop_buffer_len c o rows initState hb0
  have hlen : (runLoop c o initState rows).file.length
      + (runLoop c o initState rows).buffer.length
      = nonSkippedCount c rows := by
    have hcat := congrArg List.length (runLoop_concat c o rows initState)
    simpa [initState, processAll_length] using hcat
  have hb : (runLoop c o initState rows).buffer.length = M := by
    rw [hbuf, hn]
    show (initState.buffer.length + (K * SAVE_EVERY_N + M)) % SAVE_EVERY_N = M
    have h0 : initState.buffer.length = 0 := rfl
    have hN : SAVE_EVERY_N = 10 := rfl
    rw [h0, Nat.zero_add, hN]
    rw [hN] at hM
    omega
  refine ⟨by omega, hb, by omega, ?_⟩
  show ((runLoop c o initState rows).file
      ++ (runLoop c o initState rows).buffer).length = _
  rw [List.length_append]
  omega

/-- C4 witness: twelve non-skipped rows give one full checkpoint cycle
of ten file rows plus two buffered rows. -/
theorem c4_checkpoint_invariant_witness :
    (2 < SAVE_EVERY_N ∧
      nonSkippedCount [] (List.replicate 12 [("Variant SKU", "s")])
        = 1 * SAVE_EVERY_N + 2) ∧
    ((runLoop [] (fun _ => Except.ok "d") initState
        (List.replicate 12 [("Variant SKU", "s")])).file.length
          = 1 * SAVE_EVERY_N ∧
      (runLoop [] (fun _ => Except.ok "d") initState
        (List.replicate 12 [("Variant SKU", "s")])).buffer.length = 2 ∧
      (runLoop [] (fun _ => Except.ok "d") initState
        (List.replicate 12 [("Variant SKU", "s")])).buffer.length
          < SAVE_EVERY_N ∧
      (finalFlush (runLoop [] (fun _ => Except.ok "d") initState
        (List.replicate 12 [("Variant SKU", "s")]))).file.length
          = nonSkippedCount [] (List.replicate 12 [("Variant SKU", "s")])) :=
  ⟨⟨by decide, by decide⟩,
    c4_checkpoint_invariant [] (fun _ => Except.ok "d")
      (List.replicate 12 [("Variant SKU", "s")]) 1 2 (by decide) (by decide)⟩

/-- C5: a row on which the remote call raises a caught exception with
message `e` is appended with `generation_status = "error: " ++ e` and an
empty `new_description`, and the loop continues: the rows before and
after it are processed exactly as they would otherwise be. -/
theorem c5_error_recorded_nonfatal (c : List String)
    (o : Row → Except String String) (pre post : List Row) (row : Row)
    (e : String) (he : o row = Except.error e)
    (hns : pyStrip (rowGet row "Variant SKU") ∉ c) :
    rowGet (processedRow o row) "generation_status" = "error: " ++ e ∧
    rowGet (processedRow o row) "new_description" = "" ∧
    (finalFlush (runLoop c o initState (pre ++ row :: post))).file
      = processAll c o pre ++ processedRow o row :: processAll c o post := by
  refine ⟨(processedRow_error o row e he).1,
    (processedRow_error o row e he).2, ?_⟩
  show (runLoop c o initState (pre ++ row :: post)).file
      ++ (runLoop c o initState (pre ++ row :: post)).buffer = _
  rw [runLoop_concat c o (pre ++ row :: post) initState]
  have : initState.file = [] ∧ initState.buffer = [] := ⟨rfl, rfl⟩
  rw [this.1, this.2, processAll_append,
    processAll_cons_keep c o row post hns]
  simp

/-- C5 witness: a concrete two-row input whose first row errors. -/
theorem c5_error_recorded_nonfatal_witness :
    ((fun _ => Except.error "boom" : Row → Except String String)
        [("Title", "A")] = Except.error "boom" ∧
      pyStrip (rowGet [("Title", "A")] "Variant SKU") ∉ ([] : List String)) ∧
    (rowGet (processedRow (fun _ => Except.error "boom") [("Title", "A")])
        "generation_status" = "error: " ++ "boom" ∧
      rowGet (processedRow (fun _ => Except.error "boom") [("Title", "A")])
        "new_description" = "" ∧
      (finalFlush (runLoop [] (fun _ => Except.error "boom") initState
          ([] ++ [("Title", "A")] :: [[("Title", "B")]]))).file
        = processAll [] (fun _ => Except.error "boom") []
            ++ processedRow (fun _ => Except.error "boom") [("Title", "A")]
              :: processAll [] (fun _ => Except.error "boom") [[("Title", "B")]]) :=
  ⟨⟨rfl, by decide⟩,
    c5_error_recorded_nonfatal [] (fun _ => Except.error "boom") []
      [[("Title", "B")]] [("Title", "A")] "boom" rfl (by decide)⟩

/-- C2 counterexample: a completed first run whose single row errored
(status `"error: boom"`, empty `new_description`).  The claim predicts
that a `--resume` re-run skips every row and appends nothing; the code
retries the errored row (0 skipped, 1 error) and appends a second copy
of it (the file grows from 1 data row to 2). -/
theorem c2_resume_counterexample :
    (mainRun true (fun _ => Except.error "boom")
        [[("Variant SKU", "SKU1"), ("Title", "X")]]
        (mainRun false (fun _ => Except.error "boom")
          [[("Variant SKU", "SKU1"), ("Title", "X")]] none).file).skipped = 0 ∧
    (mainRun true (fun _ => Except.error "boom")
        [[("Variant SKU", "SKU1"), ("Title", "X")]]
        (mainRun false (fun _ => Except.error "boom")
          [[("Variant SKU", "SKU1"), ("Title", "X")]] none).file).errors = 1 ∧
    fileRowCount (mainRun false (fun _ => Except.error "boom")
        [[("Variant SKU", "SKU1"), ("Title", "X")]] none).file = 1 ∧
    fileRowCount (mainRun true (fun _ => Except.error "boom")
        [[("Variant SKU", "SKU1"), ("Title", "X")]]
        (mainRun false (fun _ => Except.error "boom")
          [[("Variant SKU", "SKU1"), ("Title", "X")]] none).file).file = 2 := by
  decide

/-- C2 as amended: when every input row has a non-empty (trimmed)
`Variant SKU` and the first (fresh, completed) run succeeds on every row
with non-empty (trimmed) generated text, a `--resume` re-run on the same
input and output skips every row — regardless of the remote behaviour
`oracle2`, i.e. without any remote call mattering — processes zero rows,
records zero errors, and leaves the output file exactly as the first run
left it (in particular no existing row is altered and nothing is
appended). -/
theorem c2_resume_idempotent_after_success
    (oracle oracle2 : Row → Except String String) (rows : List Row)
    (h1 : ∀ r ∈ rows, pyStrip (rowGet r "Variant SKU") ≠ "")
    (h2 : ∀ r ∈ rows, ∃ d, oracle r = Except.ok d ∧ pyStrip d ≠ "") :
    (mainRun true oracle2 rows
        (mainRun false oracle rows none).file).skipped = rows.length ∧
    (mainRun true oracle2 rows
        (mainRun false oracle rows none).file).processed = 0 ∧
    (mainRun true oracle2 rows
        (mainRun false oracle rows none).file).errors = 0 ∧
    (mainRun true oracle2 rows
        (mainRun false oracle rows none).file).file
      = (mainRun false oracle rows none).file := by
  have hmem : ∀ r ∈ rows, pyStrip (rowGet r "Variant SKU")
      ∈ load_completed_skus_file (mainRun false oracle rows none).file := by
    cases rows with
    | nil => intro r hr; cases hr
    | cons r0 rest =>
        intro r hr
        have hsku0 : rowGet r0 "Variant SKU" ≠ "" := by
          intro hh
          exact h1 r0 (List.mem_cons_self r0 rest) (by rw [hh]; decide)
        have hskufns : "Variant SKU" ∈ mkFieldnames (r0 :: rest) :=
          mem_mkFieldnames_of_head r0 rest _
            (mem_keys_of_rowGet_ne r0 _ hsku0)
        have hndfns := mem_mkFieldnames_nd (r0 :: rest)
        rw [mainRun_fresh_file, appendFile_init _ _ (by simp)]
        simp only [load_completed_skus_file]
        rw [fileDicts_writeRows, mem_load_completed_skus]
        obtain ⟨d, hd, hdt⟩ := h2 r hr
        refine ⟨writeRow (mkFieldnames (r0 :: rest))
          (processedRow oracle r), ?_, ?_, h1 r hr, ?_⟩
        · exact List.mem_map_of_mem _ (List.mem_map_of_mem _ hr)
        · rw [rowGet_writeRow _ _ _ hskufns,
            processedRow_other_key oracle r _ (by decide) (by decide)]
        · rw [rowGet_writeRow _ _ _ hndfns, (processedRow_ok oracle r d hd).2]
          exact hdt
  rw [mainRun_resume_all_skipped oracle2 rows _ hmem]
  exact ⟨rfl, rfl, rfl, rfl⟩

/-- C2 witness for the amended statement: one successful row, second run
with a remote oracle that would fail if it were ever consulted. -/
theorem c2_resume_idempotent_witness :
    ((∀ r ∈ [[("Variant SKU", "S1")]],
        pyStrip (rowGet r "Variant SKU") ≠ "") ∧
      (∀ r ∈ [[("Variant SKU", "S1")]], ∃ d,
        (fun _ => Except.ok "desc" : Row → Except String String) r
            = Except.ok d ∧ pyStrip d ≠ "")) ∧
    ((mainRun true (fun _ => Except.error "down") [[("Variant SKU", "S1")]]
        (mainRun false (fun _ => Except.ok "desc")
          [[("Variant SKU", "S1")]] none).file).skipped
        = [[("Variant SKU", "S1")]].length ∧
      (mainRun true (fun _ => Except.error "down") [[("Variant SKU", "S1")]]
        (mainRun false (fun _ => Except.ok "desc")
          [[("Variant SKU", "S1")]] none).file).processed = 0 ∧
      (mainRun true (fun _ => Except.error "down") [[("Variant SKU", "S1")]]
        (mainRun false (fun _ => Except.ok "desc")
          [[("Variant SKU", "S1")]] none).file).errors = 0 ∧
      (mainRun true (fun _ => Except.error "down") [[("Variant SKU", "S1")]]
        (mainRun false (fun _ => Except.ok "desc")
          [[("Variant SKU", "S1")]] none).file).file
        = (mainRun false (fun _ => Except.ok "desc")
            [[("Variant SKU", "S1")]] none).file) :=
  ⟨⟨by decide, fun r hr => ⟨"desc", rfl, by decide⟩⟩,
    c2_resume_idempotent_after_success (fun _ => Except.ok "desc")
      (fun _ => Except.error "down") [[("Variant SKU", "S1")]]
      (by decide) (fun r hr => ⟨"desc", rfl, by decide⟩)⟩

/-- C3 counterexample: with `--resume` and a missing output file, the
code leaves the file uninitialized (the resume branch of `main` never
calls `init_output_csv`): the run appends its data row into a file whose
header is `none`, refuting the claim that the header initialization
happens whether or not `--resume` was passed. -/
theorem c3_resume_no_header_counterexample :
    (mainRun true (fun _ => Except.ok "d") [[("Variant SKU", "S1")]]
        none).file
      = some ⟨none, [[("Variant SKU", "S1"), ("new_description", "d"),
          ("generation_status", "success")]]⟩ := by
  decide

/-- C3 as amended: when the output file does not exist the resume
detector returns the empty set (in either mode), and a run WITHOUT
`--resume` initializes the output file with a header row equal to the
input field names plus `new_description` and `generation_status`, before
any data rows are appended (the header is present in the resulting file
whether or not rows were written). -/
theorem c3_fresh_run_initializes_header
    (oracle : Row → Except String String) (rows : List Row) :
    load_completed_skus_file none = [] ∧
    ∃ f, (mainRun false oracle rows none).file = some f ∧
      f.header = some (mkFieldnames rows) := by
  refine ⟨rfl, ?_⟩
  rw [mainRun_fresh_file]
  cases hrows : rows.map (processedRow oracle) with
  | nil => exact ⟨⟨some (mkFieldnames rows), []⟩, rfl, rfl⟩
  | cons a l =>
      rw [appendFile_init _ _ (by simp)]
      exact ⟨_, rfl, rfl⟩

/-- C6: the `/generate` handler returns 500 when the credential is
missing (for every remote behaviour, i.e. before any remote call), 400
on an empty (or absent, which parses to empty) `product_names`, 401 on
remote authentication failure, 502 on remote API failure, 500 on any
other caught failure, 500 with the fence-stripped offending text
attached when the response does not parse as JSON, and 200 with the
parsed results on success. -/
theorem c6_generate_handles_statuses {α : Type}
    (jsonLoads : String → Option α) (names existing : List String)
    (remote : String → RemoteResult) :
    (generate_handles jsonLoads false names existing remote).1 = 500 ∧
    (generate_handles jsonLoads true [] existing remote).1 = 400 ∧
    (names ≠ [] →
      ((remote (buildUserMessage names existing) = RemoteResult.authError →
          (generate_handles jsonLoads true names existing remote).1 = 401) ∧
        (∀ m, remote (buildUserMessage names existing)
            = RemoteResult.apiError m →
          (generate_handles jsonLoads true names existing remote).1 = 502) ∧
        (∀ m, remote (buildUserMessage names existing)
            = RemoteResult.otherError m →
          (generate_handles jsonLoads true names existing remote).1 = 500) ∧
        (∀ t, remote (buildUserMessage names existing) = RemoteResult.ok t →
          jsonLoads (stripFences (pyStrip t)) = none →
          generate_handles jsonLoads true names existing remote
            = (500, RespBody.errRaw "Failed to parse AI response"
                (stripFences (pyStrip t)))) ∧
        (∀ t r, remote (buildUserMessage names existing)
            = RemoteResult.ok t →
          jsonLoads (stripFences (pyStrip t)) = some r →
          generate_handles jsonLoads true names existing remote
            = (200, RespBody.ok r)))) := by
  refine ⟨rfl, rfl, fun hne => ⟨?_, ?_, ?_, ?_, ?_⟩⟩
  · intro hr
    simp [generate_handles, hne, hr]
  · intro m hr
    simp [generate_handles, hne, hr]
  · intro m hr
    simp [generate_handles, hne, hr]
  · intro t hr hp
    simp [generate_handles, hne, hr, hp]
  · intro t r hr hp
    simp [generate_handles, hne, hr, hp]

/-- C6 witness: concrete instantiations of the no-credential, empty
input and auth-failure branches. -/
theorem c6_generate_handles_statuses_witness :
    (generate_handles parseEmptyArray false ["a"] []
        (fun _ => RemoteResult.authError)).1 = 500 ∧
    (generate_handles parseEmptyArray true [] []
        (fun _ => RemoteResult.authError)).1 = 400 ∧
    (generate_handles parseEmptyArray true ["a"] []
        (fun _ => RemoteResult.authError)).1 = 401 :=
  ⟨(c6_generate_handles_statuses parseEmptyArray ["a"] []
      (fun _ => RemoteResult.authError)).1,
    (c6_generate_handles_statuses parseEmptyArray ["a"] []
      (fun _ => RemoteResult.authError)).2.1,
    ((c6_generate_handles_statuses parseEmptyArray ["a"] []
      (fun _ => RemoteResult.authError)).2.2 (by decide)).1 rfl⟩

/-- C7 counterexample: the handler performs no validation of the parsed
remote response.  With one input name and a remote response `"[]"`
(valid JSON), the call is accepted as successful (status 200) yet
returns zero result entries instead of one. -/
theorem c7_no_validation_counterexample :
    generate_handles parseEmptyArray true ["a"] []
        (fun _ => RemoteResult.ok "[]")
      = (200, RespBody.ok ([] : List (String × String))) ∧
    ([] : List (String × String)).length ≠ ["a"].length := by
  decide

/-- C7 as amended: a successful `/generate` call returns exactly the
entries of the parsed remote JSON, unvalidated; consequently, whenever
the parsed response carries exactly the input names in order — which the
handler trusts the remote side to ensure — the response has exactly `N`
entries, each carrying its originating product name. -/
theorem c7_success_returns_parsed
    (jsonLoads : String → Option (List (String × String)))
    (names existing : List String) (remote : String → RemoteResult)
    (t : String) (results : List (String × String)) (hne : names ≠ [])
    (hr : remote (buildUserMessage names existing) = RemoteResult.ok t)
    (hp : jsonLoads (stripFences (pyStrip t)) = some results)
    (hnames : results.map Prod.fst = names) :
    generate_handles jsonLoads true names existing remote
      = (200, RespBody.ok results) ∧
    results.length = names.length ∧ results.map Prod.fst = names := by
  refine ⟨by simp [generate_handles, hne, hr, hp], ?_, hnames⟩
  rw [← hnames, List.length_map]

/-- C7 witness: one name, a parse oracle yielding its entry. -/
theorem c7_success_returns_parsed_witness :
    generate_handles (fun _ => some [("a", "a-handle")]) true ["a"] []
        (fun _ => RemoteResult.ok "x")
      = (200, RespBody.ok [("a", "a-handle")]) ∧
    [("a", "a-handle")].length = ["a"].length ∧
    [("a", "a-handle")].map Prod.fst = ["a"] :=
  c7_success_returns_parsed (fun _ => some [("a", "a-handle")]) ["a"] []
    (fun _ => RemoteResult.ok "x") "x" [("a", "a-handle")]
    (by decide) rfl rfl (by decide)

/-- C8 counterexample: on the empty record the code emits the title line
with an empty value (`"Product title: "`), while the claim — which says
the title is skipped like any other empty field — yields a prompt with
no title line at all. -/
theorem c8_title_not_skipped_counterexample :
    build_user_prompt [] ≠ build_user_prompt_claim [] := by
  decide

set_option maxHeartbeats 1600000 in
/-- C8 as amended: the prompt builder emits the title line
unconditionally (with an empty value when the field is empty or absent),
then the six other labeled field lines in fixed order (vendor/brand,
existing description, sizing, certifications, nutritional claims,
occasion), each skipped when empty or absent, then the up-to-four
mini-description fragments joined by a fixed separator when any are
present, then the fixed instruction suffix.  The statement exhibits the
builder as equal, on every record, to a function of the record field
values alone — it is pure. -/
theorem c8_prompt_builder_matches_spec (row : Row) :
    build_user_prompt row = build_user_prompt_spec row := by
  simp only [build_user_prompt, build_user_prompt_spec, miniBlock,
    optionalLine, miniDescriptions_eq_filterMap]
  split_ifs <;> simp [List.append_assoc]

/-- C9 counterexample: a sheet with no recognized header whose first
cell is EMPTY.  The first character is not a digit (there is none), so
the claim predicts `header_row == 1`; the code takes the `else` branch
of its truthiness test and reports `header_row == 0`. -/
theorem c9_empty_first_cell_counterexample :
    findProductCol [[""], ["foo"]] = none ∧
    firstCharIsDigit (cellAt [[""], ["foo"]] 1 1) = false ∧
    (upload_model [[""], ["foo"]]).2.2 = 0 ∧
    (upload_model [[""], ["foo"]]).1 = ["foo"] := by
  decide

/-- C9 as amended: when no recognized header is found, column 1 is
selected and row 1 is treated as data (`header_row = 0`) exactly when
the first cell is empty OR its first character is a digit; in particular
a digit-leading first cell gives `header_row = 0`, and extraction always
returns the non-empty stripped values of the chosen column below the
header row in original row order (so with `header_row = 0` row 1 itself
is among the extracted values whenever it is non-empty). -/
theorem c9_header_heuristic (s : Sheet) (h : findProductCol s = none) :
    (upload_model s).2.1 = 1 ∧
    ((upload_model s).2.2 = 0 ↔
      (cellAt s 1 1 = "" ∨ firstCharIsDigit (cellAt s 1 1) = true)) ∧
    (firstCharIsDigit (cellAt s 1 1) = true → (upload_model s).2.2 = 0) ∧
    (upload_model s).1 = colValuesBelow s 1 (upload_model s).2.2 := by
  simp only [upload_model, h]
  split_ifs with hc
  · refine ⟨trivial, ?_, ?_, extractColumn_eq_colValuesBelow s 1 1⟩
    · constructor
      · intro hF
        exact hF.elim
      · rintro (he | hd)
        · exact hc.1 he
        · rw [hc.2] at hd
          exact Bool.noConfusion hd
    · intro hd
      rw [hc.2] at hd
      exact Bool.noConfusion hd
  · refine ⟨trivial, ?_, fun _ => rfl, extractColumn_eq_colValuesBelow s 1 0⟩
    constructor
    · intro _
      by_cases he : cellAt s 1 1 = ""
      · exact Or.inl he
      · cases hd : firstCharIsDigit (cellAt s 1 1) with
        | true => exact Or.inr rfl
        | false => exact absurd ⟨he, hd⟩ hc
    · intro _
      rfl

/-- C9 witness for the amended statement: an unrecognized header whose
first cell starts with a digit. -/
theorem c9_header_heuristic_witness :
    (upload_model [["1"], ["foo"]]).2.1 = 1 ∧
    ((upload_model [["1"], ["foo"]]).2.2 = 0 ↔
      (cellAt [["1"], ["foo"]] 1 1 = "" ∨
        firstCharIsDigit (cellAt [["1"], ["foo"]] 1 1) = true)) ∧
    (firstCharIsDigit (cellAt [["1"], ["foo"]] 1 1) = true →
      (upload_model [["1"], ["foo"]]).2.2 = 0) ∧
    (upload_model [["1"], ["foo"]]).1
      = colValuesBelow [["1"], ["foo"]] 1 (upload_model [["1"], ["foo"]]).2.2 :=
  c9_header_heuristic [["1"], ["foo"]] (by decide)

/-- C10: a record whose key is in the completed set is never written to
the output at all (the flushed file is exactly the processed non-skipped
rows, one per non-skipped record), every written row has status
`"success"` or `"error: ..."` (never a skipped status), and skipped
records execute no rate-limit sleep (the sleep count equals the
non-skipped count). -/
theorem c10_skipped_rows_invisible (c : List String)
    (o : Row → Except String String) (rows : List Row) :
    (finalFlush (runLoop c o initState rows)).file = processAll c o rows ∧
    (∀ r ∈ (finalFlush (runLoop c o initState rows)).file,
      rowGet r "generation_status" = "success" ∨
        ∃ e, rowGet r "generation_status" = "error: " ++ e) ∧
    (finalFlush (runLoop c o initState rows)).sleeps
      = nonSkippedCount c rows ∧
    (finalFlush (runLoop c o initState rows)).file.length
      = nonSkippedCount c rows := by
  have hfile : (finalFlush (runLoop c o initState rows)).file
      = processAll c o rows := by
    show (runLoop c o initState rows).file
        ++ (runLoop c o initState rows).buffer = _
    rw [runLoop_concat c o rows initState]
    have : initState.file = [] ∧ initState.buffer = [] := ⟨rfl, rfl⟩
    rw [this.1, this.2]
    simp
  refine ⟨hfile, ?_, ?_, ?_⟩
  · rw [hfile]
    intro r hr
    obtain ⟨r0, _, rfl⟩ := eq_processedRow_of_mem_processAll c o rows r hr
    cases h : o r0 with
    | ok d => exact Or.inl (processedRow_ok o r0 d h).1
    | error e => exact Or.inr ⟨e, (processedRow_error o r0 e h).1⟩
  · show (runLoop c o initState rows).sleeps = _
    have := runLoop_sleeps c o rows initState
    simpa [initState] using this
  · rw [hfile]
    exact processAll_length c o rows
